import Mathlib

/-!
Verification of the Agentainer-lab Python SDK and MapReduce examples.

Each definition below is a shallow embedding of a function of the
repository, translated from the source:

* `stepDecorator`, `collectSteps`, `workflowDecorator`, `mapreduceDecorator`
  embed sdk/python/agentainer_flow/decorators.py;
* `map_phase`, `write_result`, `write_error` embed
  examples/mapreduce-workflow/mapper.py;
* `reduce_phase` embeds examples/mapreduce-workflow/reducer.py;
* `requestImpl` and `waitLoop` embed sdk/python/agentainer_flow/client.py.

Python numbers are modelled as Nat / Rat, Python `None` as `Option`,
exceptions as `Except`, and dictionaries as insertion-ordered association
lists (CPython dict semantics).
-/

namespace Agentainer

/-! ### Data model: step kinds (models.py, StepType) -/

inductive StepType where
  | sequential
  | parallel
  | reduce
  | mapreduce
deriving DecidableEq, Repr

/-- Arguments of the `step` decorator that determine name, kind and
dependencies (decorators.py lines 97-111); fields that the decorator merely
copies into the config bundle are represented by `image`. -/
structure StepArgs where
  name : Option String
  image : Option String
  parallel : Bool
  reduce : Bool
  depends_on : Option (List String)
deriving DecidableEq, Repr

/-- The metadata record the `step` decorator attaches to the function
(decorators.py, class StepMeta): `depends_on or []` is modelled by
`getD []`. -/
structure StepMeta where
  name : String
  step_type : StepType
  depends_on : List String
  image : String
deriving DecidableEq, Repr

/-- Python `a or b` for an optional string `a`: `None` and the empty
string are falsy and fall back to `b`. -/
def pyStrOr (a : Option String) (b : String) : String :=
  match a with
  | none => b
  | some s => if s.data.isEmpty then b else s

/-- Embedding of the body of the `step` decorator (decorators.py lines
135-180): the step name is `name or func.__name__` (so a missing name and
an explicit empty-string name both fall back to the defining function
name), the kind is inferred from the `reduce` / `parallel` flags, the
config image is `image or "default"`.  The Python body contains no `raise`
statement and performs no validation, so the embedding is a total
function. -/
def stepDecorator (args : StepArgs) (funcName : String) : StepMeta :=
  { name := pyStrOr args.name funcName
    step_type :=
      if args.reduce then StepType.reduce
      else if args.parallel then StepType.parallel
      else StepType.sequential
    depends_on := args.depends_on.getD []
    image := pyStrOr args.image "default" }

/-! ### Step collection by the `workflow` decorator (decorators.py 68-92)

The decorator iterates `dir(cls)` (which returns attribute names sorted
alphabetically by code point) and inserts every attribute carrying
`_step_meta` into the `meta.steps` dict keyed by the step name.  A class is
modelled as its attribute list in declaration order, each attribute either
carrying a `StepMeta` or not. -/

/-- Lexicographic code-point comparison of character lists, the order
Python string sorting uses. -/
def charListLe : List Char → List Char → Bool
  | [], _ => true
  | _ :: _, [] => false
  | a :: as, b :: bs =>
      if a.toNat < b.toNat then true
      else if b.toNat < a.toNat then false
      else charListLe as bs

/-- Code-point-lexicographic string comparison. -/
def strLe (a b : String) : Bool :=
  charListLe a.data b.data

/-- One insertion step of an insertion sort on attribute names; `dir(cls)`
sorts names ascending by code point. -/
def insertByName (x : String × Option StepMeta) :
    List (String × Option StepMeta) → List (String × Option StepMeta)
  | [] => [x]
  | y :: ys => if strLe x.1 y.1 then x :: y :: ys else y :: insertByName x ys

/-- The alphabetical ordering `dir(cls)` applies to the attribute list. -/
def pyDir (attrs : List (String × Option StepMeta)) :
    List (String × Option StepMeta) :=
  attrs.foldr insertByName []

/-- CPython dict assignment `d[k] = v`: an existing key keeps its position
and is overwritten, a new key is appended. -/
def dictInsert (k : String) (v : StepMeta) :
    List (String × StepMeta) → List (String × StepMeta)
  | [] => [(k, v)]
  | (k', v') :: rest =>
      if k = k' then (k, v) :: rest else (k', v') :: dictInsert k v rest

/-- Embedding of the step-collection loop of the `workflow` decorator
(decorators.py lines 86-90): iterate `dir(cls)` and store each step under
`step_meta.name`. -/
def collectSteps (attrs : List (String × Option StepMeta)) :
    List (String × StepMeta) :=
  (pyDir attrs).foldl
    (fun d a =>
      match a.2 with
      | some m => dictInsert m.name m d
      | none => d)
    []

/-- The workflow metadata produced by the `workflow` decorator. -/
structure WorkflowMeta where
  name : String
  steps : List (String × StepMeta)
deriving DecidableEq, Repr

/-- Embedding of the `workflow` decorator (decorators.py lines 68-92). -/
def workflowDecorator (name : String)
    (attrs : List (String × Option StepMeta)) : WorkflowMeta :=
  { name := name, steps := collectSteps attrs }

/-- The `_mapreduce_config` dict the `mapreduce` decorator attaches to the
class (decorators.py lines 247-253). -/
structure MapReduceConfigMeta where
  mapper_image : String
  reducer_image : String
  max_parallel : Nat
deriving DecidableEq, Repr

/-- Python `str.lower()` restricted to ASCII names, applied character by
character. -/
def pyLower (s : String) : String :=
  ⟨s.data.map Char.toLower⟩

/-- Embedding of the `mapreduce` decorator (decorators.py lines 218-265):
it attaches `_mapreduce_config` and then applies the `workflow` decorator
under the lower-cased class name.  It adds no steps of its own: the
resulting step collection is exactly what `workflow` collects from the
attributes already on the class. -/
def mapreduceDecorator (mapper reducer : String) (max_parallel : Nat)
    (clsName : String) (attrs : List (String × Option StepMeta)) :
    MapReduceConfigMeta × WorkflowMeta :=
  ({ mapper_image := mapper, reducer_image := reducer,
     max_parallel := max_parallel },
   workflowDecorator (pyLower clsName) attrs)

/-- Execution order of `WorkflowTestRunner.run_workflow` (testing.py lines
123-144): the runner iterates `meta.steps.items()`, hence runs the steps in
the order `collectSteps` produced. -/
def runOrder (attrs : List (String × Option StepMeta)) : List String :=
  (collectSteps attrs).map Prod.fst

/-! ### Mapper records (mapper.py)

A successful map task builds the `result` dict of mapper.py lines 207-218;
a failed one builds the `error_result` dict of lines 231-237 / 241-247.
The reducer reads most fields through `dict.get` with a default, so those
fields are `Option`-valued. -/

/-- The record a successful map task appends to `map_results`
(mapper.py lines 207-218). -/
structure MapResult where
  task_id : String
  url : String
  word_count : Option Nat
  unique_words : Option Nat
  top_words : Option (List (String × Nat))
  content_length : Option Nat
  response_time : Option Rat
  timestamp : Option Rat
deriving DecidableEq, Repr

/-- The record a failed map task appends to `map_errors`
(mapper.py lines 231-237 and 241-247). -/
structure MapError where
  task_id : String
  url : String
  error : Option String
  error_type : Option String
  timestamp : Option Rat
deriving DecidableEq, Repr

/-- Python truthiness of an optional string: `None` and the empty string
are falsy. -/
def truthyStr : Option String → Bool
  | none => false
  | some s => !s.isEmpty

/-- The URL resolution of map_phase (mapper.py lines 134-138): the task
input field `current_url`, falling back to the workflow-state entry when
the former is falsy; the result is `none` when both are falsy. -/
def resolveUrl (inputUrl stateUrl : Option String) : Option String :=
  if truthyStr inputUrl then inputUrl
  else if truthyStr stateUrl then stateUrl
  else none

/-- Outcome of the body of the `try` block of map_phase (the HTTP fetch,
parsing and word counting, mapper.py lines 148-227): either the `result`
record is computed, or an exception of class `requests.RequestException`
is raised, or any other exception is raised. -/
inductive ProcessOutcome where
  | success (r : MapResult)
  | requestError (msg : String)
  | otherError (msg : String)
deriving DecidableEq, Repr

/-- An append to one of the two accumulation lists in workflow state. -/
inductive MapAppend where
  | toResults (r : MapResult)
  | toErrors (e : MapError)
deriving DecidableEq, Repr

/-- Embedding of map_phase (mapper.py lines 125-248).  When no URL
resolves, the function raises (the `ValueError` of line 143, re-raised out
of the function since it sits before the `try` block).  Otherwise the
`try` / `except` structure of lines 147-248 runs: a computed result is
appended to `map_results`; a `requests.RequestException` is caught and
converted to a `map_errors` record tagged "request_error"; any other
exception is caught by the second handler and tagged "processing_error".
The return value lists the appends performed on workflow state. -/
def map_phase (task_id : String) (inputUrl stateUrl : Option String)
    (oc : ProcessOutcome) (now : Rat) : Except String (List MapAppend) :=
  match resolveUrl inputUrl stateUrl with
  | none => Except.error "No URL provided for map task"
  | some u =>
    match oc with
    | ProcessOutcome.success r => Except.ok [MapAppend.toResults r]
    | ProcessOutcome.requestError m =>
        Except.ok [MapAppend.toErrors
          { task_id := task_id, url := u, error := some m,
            error_type := some "request_error", timestamp := some now }]
    | ProcessOutcome.otherError m =>
        Except.ok [MapAppend.toErrors
          { task_id := task_id, url := u, error := some m,
            error_type := some "processing_error", timestamp := some now }]

/-! ### Task handoff (mapper.py lines 250-266, reducer.py lines 161-177,
doc-extractor/app.py lines 54-74): store the terminal record with a 3600s
TTL, then publish the outcome on the task completion channel. -/

/-- An operation against the shared store. -/
inductive StoreOp where
  | setex (key : String) (value : String) (ttl : Nat)
  | publish (channel : String) (message : String)
deriving DecidableEq, Repr

/-- Embedding of write_result: `SET task:{id}:result <json> EX 3600`
followed by `PUBLISH task:{id}:complete "completed"`. -/
def write_result (task_id : String) (resultJson : String) : List StoreOp :=
  [ StoreOp.setex ("task:" ++ task_id ++ ":result") resultJson 3600,
    StoreOp.publish ("task:" ++ task_id ++ ":complete") "completed" ]

/-- Embedding of write_error: `SET task:{id}:error <msg> EX 3600` followed
by `PUBLISH task:{id}:complete "error"`. -/
def write_error (task_id : String) (errorMsg : String) : List StoreOp :=
  [ StoreOp.setex ("task:" ++ task_id ++ ":error") errorMsg 3600,
    StoreOp.publish ("task:" ++ task_id ++ ":complete") "error" ]

/-- The publish operations of a store trace, as channel-message pairs. -/
def publishes (ops : List StoreOp) : List (String × String) :=
  ops.filterMap
    (fun op =>
      match op with
      | StoreOp.publish ch msg => some (ch, msg)
      | _ => none)

/-! ### Reducer (reducer.py lines 44-118)

`collections.Counter` over strings is modelled as an insertion-ordered
association list; `Counter.update` adds counts in place, appending unseen
keys, and `most_common(n)` stable-sorts by count descending and takes the
first n entries. -/

/-- Add `n` to the count of `w` in an insertion-ordered counter. -/
def counterAdd (c : List (String × Nat)) (w : String) (n : Nat) :
    List (String × Nat) :=
  match c with
  | [] => [(w, n)]
  | (w', n') :: rest =>
      if w = w' then (w', n' + n) :: rest else (w', n') :: counterAdd rest w n

/-- `Counter.update(mapping)`: add every count of `items` into `c`. -/
def counterUpdate (c : List (String × Nat)) (items : List (String × Nat)) :
    List (String × Nat) :=
  items.foldl (fun acc p => counterAdd acc p.1 p.2) c

/-- One insertion step of a stable insertion sort by count descending. -/
def insertByCount (x : String × Nat) :
    List (String × Nat) → List (String × Nat)
  | [] => [x]
  | y :: ys => if y.2 ≤ x.2 then x :: y :: ys else y :: insertByCount x ys

/-- `Counter.most_common(n)`: entries sorted by count descending (stable on
insertion order) with the first n taken. -/
def mostCommon (n : Nat) (c : List (String × Nat)) : List (String × Nat) :=
  (c.foldr insertByCount []).take n

/-- Minimum of a Python list via `min`, with the 0 sentinel on an empty
list (reducer.py line 85). -/
def pyMin (l : List Rat) : Rat :=
  match l with
  | [] => 0
  | x :: xs => xs.foldl min x

/-- Maximum of a Python list via `max`, with the 0 sentinel on an empty
list (reducer.py line 86). -/
def pyMax (l : List Rat) : Rat :=
  match l with
  | [] => 0
  | x :: xs => xs.foldl max x

/-- The full summary dict built by reduce_phase (reducer.py lines 93-115);
the nested `performance` dict is inlined as four fields. -/
structure Summary where
  total_urls_processed : Nat
  total_urls_failed : Nat
  success_rate : Rat
  total_words : Nat
  total_unique_words : Nat
  total_bytes : Nat
  average_words_per_page : Rat
  average_unique_words_per_page : Rat
  average_bytes_per_page : Rat
  total_response_time : Rat
  min_response_time : Rat
  max_response_time : Rat
  avg_response_time : Rat
  top_30_words : List (String × Nat)
  error_summary : List (String × Nat)
  successful_urls : List String
  failed_urls : List (String × String)
deriving DecidableEq, Repr

/-- A value written under the `final_summary` state key: either the
reduced no-data summary of reducer.py lines 58-64 or the full summary of
lines 93-115. -/
inductive FinalSummary where
  | noData (total_urls_processed total_urls_failed : Nat) (err : String)
  | full (s : Summary)
deriving DecidableEq, Repr

/-- The aggregate computation of reduce_phase (reducer.py lines 68-115),
field by field in source order.  Every division guarded by a Python
conditional expression becomes an `if` on emptiness of the guarding
list. -/
def mkSummary (rs : List MapResult) (es : List MapError) : Summary :=
  let total_words := (rs.map (fun r => r.word_count.getD 0)).sum
  let total_unique_words := (rs.map (fun r => r.unique_words.getD 0)).sum
  let total_bytes := (rs.map (fun r => r.content_length.getD 0)).sum
  let total_response_time :=
    (rs.map (fun r => r.response_time.getD 0)).sum
  let combined_words :=
    rs.foldl
      (fun c r =>
        match r.top_words with
        | some tw => counterUpdate c tw
        | none => c)
      []
  let response_times := rs.map (fun r => r.response_time.getD 0)
  { total_urls_processed := rs.length
    total_urls_failed := es.length
    success_rate :=
      if rs.isEmpty && es.isEmpty then 0
      else (rs.length : Rat) / ((rs.length : Rat) + (es.length : Rat)) * 100
    total_words := total_words
    total_unique_words := total_unique_words
    total_bytes := total_bytes
    average_words_per_page :=
      if rs.isEmpty then 0 else (total_words : Rat) / (rs.length : Rat)
    average_unique_words_per_page :=
      if rs.isEmpty then 0
      else (total_unique_words : Rat) / (rs.length : Rat)
    average_bytes_per_page :=
      if rs.isEmpty then 0 else (total_bytes : Rat) / (rs.length : Rat)
    total_response_time := total_response_time
    min_response_time := pyMin response_times
    max_response_time := pyMax response_times
    avg_response_time :=
      if rs.isEmpty then 0 else total_response_time / (rs.length : Rat)
    top_30_words := mostCommon 30 combined_words
    error_summary :=
      es.foldl (fun c e => counterAdd c (e.error_type.getD "unknown") 1) []
    successful_urls := rs.map (fun r => r.url)
    failed_urls := es.map (fun e => (e.url, e.error.getD "Unknown")) }

/-- Embedding of reduce_phase (reducer.py lines 44-118): read the two
accumulation lists, and write exactly one `final_summary` state entry —
the no-data record when both lists are empty (lines 55-66), the full
summary otherwise.  The return value lists the workflow-state writes
performed. -/
def reduce_phase (rs : List MapResult) (es : List MapError) :
    List (String × FinalSummary) :=
  if rs.isEmpty && es.isEmpty then
    [("final_summary", FinalSummary.noData 0 0 "No data to process")]
  else
    [("final_summary", FinalSummary.full (mkSummary rs es))]

/-! ### Client: WorkflowClient._request (client.py lines 154-180)

The HTTP layer either raises an `aiohttp.ClientError` (any network-layer
failure) or delivers a response with a status code and a parsed JSON body;
the body is modelled by its optional `message` field plus an opaque
payload.  The method wraps both failure layers into the single SDK
`ClientError` type. -/

/-- A parsed JSON response body: `data.get("message")` plus the rest. -/
structure RespBody where
  message : Option String
  payload : String
deriving DecidableEq, Repr

/-- What the transport layer delivers to `_request`. -/
inductive TransportOutcome where
  | netError (msg : String)
  | response (status : Nat) (body : RespBody)
deriving DecidableEq, Repr

/-- The SDK ClientError (exceptions.py line 26) carrying its message. -/
structure ClientError where
  msg : String
deriving DecidableEq, Repr

/-- Embedding of `WorkflowClient._request` (client.py lines 154-180): a
response with status >= 400 raises `ClientError` carrying the
server-supplied message (defaulting to "Unknown error"), any
`aiohttp.ClientError` from the transport is re-raised as the same
`ClientError` kind wrapping the transport message, and every other
response is returned as data. -/
def requestImpl : TransportOutcome → Except ClientError RespBody
  | TransportOutcome.netError m =>
      Except.error { msg := "Network error: " ++ m }
  | TransportOutcome.response status body =>
      if 400 ≤ status then
        Except.error
          { msg := "API error (" ++ toString status ++ "): "
              ++ body.message.getD "Unknown error" }
      else
        Except.ok body

/-! ### Client: WorkflowExecution.wait_for_completion (client.py 43-67)

The loop refetches the workflow status, returns when the status is one of
COMPLETED, FAILED, CANCELLED, raises the timeout error when
`timeout and elapsed > timeout`, and otherwise sleeps 2 seconds.  Time is
idealised: the n-th poll happens at elapsed time 2n seconds (the status
fetches are instantaneous and each sleep is exactly 2s).  The loop can run
forever, so it is embedded with explicit fuel: `none` means the loop is
still running after `fuel` iterations. -/

/-- Workflow status (models.py, WorkflowStatus). -/
inductive WorkflowStatus where
  | pending
  | running
  | completed
  | failed
  | cancelled
deriving DecidableEq, Repr

/-- The terminal-status test of client.py lines 51-55. -/
def isTerminal : WorkflowStatus → Bool
  | WorkflowStatus.completed => true
  | WorkflowStatus.failed => true
  | WorkflowStatus.cancelled => true
  | _ => false

/-- Python truthiness of the `timeout` argument: `None` and `0` are
falsy. -/
def timeoutTruthy : Option Rat → Bool
  | none => false
  | some t => !(t == 0)

/-- Numeric value of the timeout argument for the comparison (only used
when truthy). -/
def timeoutVal : Option Rat → Rat
  | none => 0
  | some t => t

/-- How a wait_for_completion call ends: a normal return carrying the
observed terminal status and the poll index that observed it, or the
timeout error raise of client.py line 65. -/
inductive WaitOutcome where
  | done (s : WorkflowStatus) (poll : Nat)
  | timedOut (elapsed : Rat)
deriving DecidableEq, Repr

/-- One-loop-per-fuel embedding of the `while True` loop of
wait_for_completion (client.py lines 47-67).  `g n` is the status the n-th
refetch observes; the elapsed time at poll n is `2 * n`. -/
def waitLoop (g : Nat → WorkflowStatus) (timeout : Option Rat) :
    Nat → Nat → Option WaitOutcome
  | 0, _ => none
  | fuel + 1, n =>
      if isTerminal (g n) then some (WaitOutcome.done (g n) n)
      else if timeoutTruthy timeout && decide (timeoutVal timeout < 2 * (n : Rat)) then
        some (WaitOutcome.timedOut (2 * (n : Rat)))
      else waitLoop g timeout fuel (n + 1)

/-- wait_for_completion: run the polling loop from its first iteration. -/
def wait_for_completion (g : Nat → WorkflowStatus) (timeout : Option Rat)
    (fuel : Nat) : Option WaitOutcome :=
  waitLoop g timeout fuel 0

/-! ## Theorems -/

/-- C6: for every step declaration, the compiled step name defaults to the
defining function name when no explicit name is given — the source computes
`name or func.__name__`, so both a missing name and a falsy empty-string
name fall back to the function name, while a truthy explicit name is kept —
and the kind is inferred as reduce implies REDUCE, otherwise parallel
implies PARALLEL, otherwise SEQUENTIAL. -/
theorem c6_step_name_default_and_kind (args : StepArgs) (funcName : String) :
    (args.name = none → (stepDecorator args funcName).name = funcName)
    ∧ (args.name = some "" → (stepDecorator args funcName).name = funcName)
    ∧ (∀ s, args.name = some s → s ≠ "" →
        (stepDecorator args funcName).name = s)
    ∧ (args.reduce = true →
        (stepDecorator args funcName).step_type = StepType.reduce)
    ∧ (args.reduce = false → args.parallel = true →
        (stepDecorator args funcName).step_type = StepType.parallel)
    ∧ (args.reduce = false → args.parallel = false →
        (stepDecorator args funcName).step_type = StepType.sequential) := by
  refine ⟨?_, ?_, ?_, ?_, ?_, ?_⟩
  · intro h; simp [stepDecorator, pyStrOr, h]
  · intro h; simp [stepDecorator, pyStrOr, h]
  · intro s h hne
    have hdata : s.data ≠ [] := by
      intro hd
      apply hne
      cases s with
      | mk d =>
          simp only at hd
          rw [hd]
    have hisempty : s.data.isEmpty = false := by
      cases hdd : s.data with
      | nil => exact absurd hdd hdata
      | cons c cs => rfl
    simp [stepDecorator, pyStrOr, h, hisempty]
  · intro h; simp [stepDecorator, h]
  · intro h1 h2; simp [stepDecorator, h1, h2]
  · intro h1 h2; simp [stepDecorator, h1, h2]

/-- C6 witness: a parallel step declared with no explicit name on a
function named process_batch takes that function name and the PARALLEL
kind; an explicit empty-string name also falls back to the function name,
and an explicit non-empty name is kept. -/
theorem c6_step_name_default_and_kind_witness :
    (stepDecorator
        { name := none, image := none, parallel := true, reduce := false,
          depends_on := none } "process_batch").name = "process_batch"
    ∧ (stepDecorator
        { name := some "", image := none, parallel := true, reduce := false,
          depends_on := none } "process_batch").name = "process_batch"
    ∧ (stepDecorator
        { name := some "custom-step", image := none, parallel := true,
          reduce := false, depends_on := none } "process_batch").name
        = "custom-step"
    ∧ (stepDecorator
        { name := none, image := none, parallel := true, reduce := false,
          depends_on := none } "process_batch").step_type
        = StepType.parallel := by
  refine ⟨?_, ?_, ?_, ?_⟩
  · exact (c6_step_name_default_and_kind
      { name := none, image := none, parallel := true, reduce := false,
        depends_on := none } "process_batch").1 rfl
  · exact (c6_step_name_default_and_kind
      { name := some "", image := none, parallel := true, reduce := false,
        depends_on := none } "process_batch").2.1 rfl
  · exact (c6_step_name_default_and_kind
      { name := some "custom-step", image := none, parallel := true,
        reduce := false, depends_on := none } "process_batch").2.2.1
      "custom-step" rfl (by decide)
  · exact (c6_step_name_default_and_kind
      { name := none, image := none, parallel := true, reduce := false,
        depends_on := none } "process_batch").2.2.2.2.1 rfl rfl

/-- C3: evaluating the step decorator at the failing input — reduce=true
with depends_on absent.  The claim says this raises a ValidationError at
declaration time; the code performs no validation at all (ValidationError
is imported into decorators.py but never raised, and no duplicate-name,
unresolved-dependency or cycle check exists), so the decorator returns the
invalid REDUCE step with an empty dependency list instead of raising. -/
theorem c3_invalid_reduce_step_is_registered :
    stepDecorator
        { name := none, image := none, parallel := false, reduce := true,
          depends_on := none } "aggregate"
      = { name := "aggregate", step_type := StepType.reduce,
          depends_on := [], image := "default" } := by
  rfl

/-- C4: evaluating the mapreduce decorator at the failing input — a class
named WordCount with one undecorated attribute, mirroring the usage shown
in the decorator docstring.  The claim (and the repository test suite)
says the resulting graph holds exactly two synthesized steps; the code
only attaches a config record and applies the workflow decorator, so the
resulting graph holds zero steps. -/
theorem c4_mapreduce_synthesizes_no_steps :
    (mapreduceDecorator "word-mapper:latest" "word-reducer:latest" 10
        "WordCount" [("configure", none)]).2
      = { name := "wordcount", steps := [] }
    ∧ ([] : List (String × StepMeta)).length ≠ 2 := by
  exact ⟨rfl, by decide⟩

/-- C5: evaluating the step collection at the failing input — a workflow
class declaring a step on method zebra first and a step on method alpha
second.  The claim says the compiled collection preserves declaration
order ["zebra", "alpha"]; the code iterates dir(cls), which sorts
attribute names, so the collection (and the execution order of
WorkflowTestRunner.run_workflow, which follows it) is the alphabetical
["alpha", "zebra"]. -/
theorem c5_steps_collected_alphabetically :
    (collectSteps
        [("zebra", some { name := "zebra", step_type := StepType.sequential,
                          depends_on := [], image := "default" }),
         ("alpha", some { name := "alpha", step_type := StepType.sequential,
                          depends_on := [], image := "default" })]).map
        Prod.fst
      = ["alpha", "zebra"]
    ∧ runOrder
        [("zebra", some { name := "zebra", step_type := StepType.sequential,
                          depends_on := [], image := "default" }),
         ("alpha", some { name := "alpha", step_type := StepType.sequential,
                          depends_on := [], image := "default" })]
      = ["alpha", "zebra"]
    ∧ (["alpha", "zebra"] : List String) ≠ ["zebra", "alpha"] := by
  refine ⟨rfl, rfl, ?_⟩
  decide

/-- C2: for every map item that resolves to a URL, whatever the outcome of
processing it, map_phase returns normally (no exception propagates out of
the phase) having appended exactly one record to exactly one accumulation
list: the result record to map_results on success, and an error record to
map_errors on failure, tagged request_error for request exceptions and
processing_error for any other exception. -/
theorem c2_map_phase_partial_failure (tid : String)
    (iurl surl : Option String) (u : String)
    (hres : resolveUrl iurl surl = some u) (oc : ProcessOutcome) (now : Rat) :
    ∃ a, map_phase tid iurl surl oc now = Except.ok [a]
      ∧ (∀ r, oc = ProcessOutcome.success r → a = MapAppend.toResults r)
      ∧ (∀ m, oc = ProcessOutcome.requestError m →
          a = MapAppend.toErrors
            { task_id := tid, url := u, error := some m,
              error_type := some "request_error", timestamp := some now })
      ∧ (∀ m, oc = ProcessOutcome.otherError m →
          a = MapAppend.toErrors
            { task_id := tid, url := u, error := some m,
              error_type := some "processing_error", timestamp := some now }) := by
  unfold map_phase
  rw [hres]
  cases oc with
  | success r =>
      refine ⟨MapAppend.toResults r, rfl, ?_, ?_, ?_⟩
      · intro r' h; injection h with h; rw [h]
      · intro m h; exact absurd h (by simp)
      · intro m h; exact absurd h (by simp)
  | requestError m =>
      refine ⟨_, rfl, ?_, ?_, ?_⟩
      · intro r' h; exact absurd h (by simp)
      · intro m' h; injection h with h; rw [h]
      · intro m' h; exact absurd h (by simp)
  | otherError m =>
      refine ⟨_, rfl, ?_, ?_, ?_⟩
      · intro r' h; exact absurd h (by simp)
      · intro m' h; exact absurd h (by simp)
      · intro m' h; injection h with h; rw [h]

/-- C2 witness: a map task with task id 0 and task-input URL https://a
whose processing raises a request exception. -/
theorem c2_map_phase_partial_failure_witness :
    resolveUrl (some "https://a") none = some "https://a"
    ∧ ∃ a, map_phase "0" (some "https://a") none
          (ProcessOutcome.requestError "boom") 0 = Except.ok [a]
        ∧ (∀ r, ProcessOutcome.requestError "boom" = ProcessOutcome.success r →
            a = MapAppend.toResults r)
        ∧ (∀ m, ProcessOutcome.requestError "boom" = ProcessOutcome.requestError m →
            a = MapAppend.toErrors
              { task_id := "0", url := "https://a", error := some m,
                error_type := some "request_error", timestamp := some 0 })
        ∧ (∀ m, ProcessOutcome.requestError "boom" = ProcessOutcome.otherError m →
            a = MapAppend.toErrors
              { task_id := "0", url := "https://a", error := some m,
                error_type := some "processing_error", timestamp := some 0 }) := by
  exact ⟨rfl, c2_map_phase_partial_failure "0" (some "https://a") none
    "https://a" rfl (ProcessOutcome.requestError "boom") 0⟩

/-- C7: write_result stores the result JSON under the task-scoped result
key with TTL 3600 strictly before its single completed notification on the
task completion channel, and write_error follows the same store-then-publish
order under the distinct error key, publishing error on the same channel. -/
theorem c7_store_then_publish (id res err : String) :
    publishes (write_result id res)
        = [("task:" ++ id ++ ":complete", "completed")]
    ∧ (∃ i j, i < j
        ∧ (write_result id res).get? i
            = some (StoreOp.setex ("task:" ++ id ++ ":result") res 3600)
        ∧ (write_result id res).get? j
            = some (StoreOp.publish ("task:" ++ id ++ ":complete") "completed"))
    ∧ publishes (write_error id err)
        = [("task:" ++ id ++ ":complete", "error")]
    ∧ (∃ i j, i < j
        ∧ (write_error id err).get? i
            = some (StoreOp.setex ("task:" ++ id ++ ":error") err 3600)
        ∧ (write_error id err).get? j
            = some (StoreOp.publish ("task:" ++ id ++ ":complete") "error"))
    ∧ ("task:" ++ id ++ ":result") ≠ ("task:" ++ id ++ ":error") := by
  refine ⟨rfl, ⟨0, 1, by decide, rfl, rfl⟩, rfl, ⟨0, 1, by decide, rfl, rfl⟩, ?_⟩
  intro hcontra
  have hlen := congrArg String.length hcontra
  simp [String.length_append] at hlen
  exact absurd hlen (by decide)

/-- C7 witness: instantiating the handoff pattern at task id 42. -/
theorem c7_store_then_publish_witness :
    publishes (write_result "42" "{}") = [("task:42:complete", "completed")]
    ∧ publishes (write_error "42" "oops") = [("task:42:complete", "error")] := by
  exact ⟨(c7_store_then_publish "42" "{}" "oops").1,
    (c7_store_then_publish "42" "{}" "oops").2.2.1⟩

/-- C9 counterexample: a 304 response is not a 2xx status, yet _request
returns it as data instead of raising a ClientError — the status check of
client.py line 173 only fires for status at least 400. -/
theorem c9_counterexample_304_returns_ok :
    requestImpl (TransportOutcome.response 304
        { message := some "not modified", payload := "cached" })
      = Except.ok { message := some "not modified", payload := "cached" }
    ∧ ¬(200 ≤ 304 ∧ 304 < 300) := by
  exact ⟨rfl, by decide⟩

/-- C9 (amended): every response with status at least 400 raises a
ClientError carrying the server-supplied message, and every network-layer
failure raises the same ClientError kind wrapping the transport error, so
callers handle exactly one error type regardless of failure layer. -/
theorem c9_request_error_mapping (oc : TransportOutcome) :
    (∀ st body, oc = TransportOutcome.response st body → 400 ≤ st →
        requestImpl oc = Except.error
          { msg := "API error (" ++ toString st ++ "): "
              ++ body.message.getD "Unknown error" })
    ∧ (∀ m, oc = TransportOutcome.netError m →
        requestImpl oc = Except.error { msg := "Network error: " ++ m }) := by
  constructor
  · intro st body hoc hst
    subst hoc
    simp [requestImpl, hst]
  · intro m hoc
    subst hoc
    rfl

/-- C9 witness: a 500 response whose body carries message boom, and a
refused connection. -/
theorem c9_request_error_mapping_witness :
    requestImpl (TransportOutcome.response 500
        { message := some "boom", payload := "" })
      = Except.error
          { msg := "API error (" ++ toString 500 ++ "): "
              ++ (some "boom").getD "Unknown error" }
    ∧ requestImpl (TransportOutcome.netError "refused")
      = Except.error { msg := "Network error: " ++ "refused" } := by
  exact ⟨(c9_request_error_mapping (TransportOutcome.response 500
      { message := some "boom", payload := "" })).1 500
      { message := some "boom", payload := "" } rfl (by norm_num),
    (c9_request_error_mapping (TransportOutcome.netError "refused")).2
      "refused" rfl⟩

/-- C1: for accumulation lists with N-k entries in map_results and k
entries in map_errors (N at least 1), reduce_phase writes exactly one
final_summary entry whose total_urls_processed is N-k, total_urls_failed
is k, and success_rate is (N-k)/N*100; and when map_results is empty every
derived average and rate — success_rate, the three per-page averages, and
the min, max and average response times — is the sentinel 0 rather than a
division failure. -/
theorem c1_reduce_summary (rs : List MapResult) (es : List MapError)
    (h : 1 ≤ rs.length + es.length) :
    ∃ s, reduce_phase rs es = [("final_summary", FinalSummary.full s)]
      ∧ s.total_urls_processed = rs.length
      ∧ s.total_urls_failed = es.length
      ∧ s.success_rate
          = (rs.length : Rat) / ((rs.length : Rat) + (es.length : Rat)) * 100
      ∧ (rs = [] →
          s.success_rate = 0
          ∧ s.average_words_per_page = 0
          ∧ s.average_unique_words_per_page = 0
          ∧ s.average_bytes_per_page = 0
          ∧ s.min_response_time = 0
          ∧ s.max_response_time = 0
          ∧ s.avg_response_time = 0) := by
  have hne : (rs.isEmpty && es.isEmpty) = false := by
    cases rs with
    | nil =>
        cases es with
        | nil => simp at h
        | cons e es' => rfl
    | cons r rs' => rfl
  refine ⟨mkSummary rs es, ?_, rfl, rfl, ?_, ?_⟩
  · simp [reduce_phase, hne]
  · simp [mkSummary, hne]
  · intro hrs
    subst hrs
    have hes : es ≠ [] := by
      intro hes
      subst hes
      simp at h
    refine ⟨?_, rfl, rfl, rfl, rfl, rfl, rfl⟩
    simp [mkSummary, hne]

/-- C1 witness: one successful result and one request error, so N = 2 and
k = 1. -/
theorem c1_reduce_summary_witness :
    1 ≤ ([({ task_id := "0", url := "https://a", word_count := some 10,
             unique_words := some 5, top_words := some [("hello", 3)],
             content_length := some 100, response_time := some 1,
             timestamp := some 0 } : MapResult)].length
          + [({ task_id := "1", url := "https://b", error := some "boom",
                error_type := some "request_error",
                timestamp := some 0 } : MapError)].length)
    ∧ ∃ s, reduce_phase
          [{ task_id := "0", url := "https://a", word_count := some 10,
             unique_words := some 5, top_words := some [("hello", 3)],
             content_length := some 100, response_time := some 1,
             timestamp := some 0 }]
          [{ task_id := "1", url := "https://b", error := some "boom",
             error_type := some "request_error", timestamp := some 0 }]
        = [("final_summary", FinalSummary.full s)]
      ∧ s.total_urls_processed = 1
      ∧ s.total_urls_failed = 1
      ∧ s.success_rate = ((1 : Rat) / ((1 : Rat) + (1 : Rat)) * 100)
      ∧ ([({ task_id := "0", url := "https://a", word_count := some 10,
             unique_words := some 5, top_words := some [("hello", 3)],
             content_length := some 100, response_time := some 1,
             timestamp := some 0 } : MapResult)] = [] →
          s.success_rate = 0
          ∧ s.average_words_per_page = 0
          ∧ s.average_unique_words_per_page = 0
          ∧ s.average_bytes_per_page = 0
          ∧ s.min_response_time = 0
          ∧ s.max_response_time = 0
          ∧ s.avg_response_time = 0) := by
  exact ⟨by decide, c1_reduce_summary
    [{ task_id := "0", url := "https://a", word_count := some 10,
       unique_words := some 5, top_words := some [("hello", 3)],
       content_length := some 100, response_time := some 1,
       timestamp := some 0 }]
    [{ task_id := "1", url := "https://b", error := some "boom",
       error_type := some "request_error", timestamp := some 0 }]
    (by decide)⟩

/-- A normal return of the polling loop always carries a terminal
status. -/
theorem waitLoop_done_terminal (g : Nat → WorkflowStatus) (t : Option Rat) :
    ∀ (fuel k : Nat) (s : WorkflowStatus) (p : Nat),
      waitLoop g t fuel k = some (WaitOutcome.done s p) → isTerminal s = true := by
  intro fuel
  induction fuel with
  | zero =>
      intro k s p hloop
      simp [waitLoop] at hloop
  | succ n ih =>
      intro k s p hloop
      rw [waitLoop] at hloop
      by_cases hterm : isTerminal (g k) = true
      · rw [if_pos hterm] at hloop
        injection hloop with hloop
        injection hloop with hs hp
        rw [← hs]
        exact hterm
      · rw [if_neg hterm] at hloop
        by_cases htime :
            (timeoutTruthy t && decide (timeoutVal t < 2 * (k : Rat))) = true
        · rw [if_pos htime] at hloop
          injection hloop with hloop
          exact absurd hloop (by simp)
        · rw [if_neg htime] at hloop
          exact ih (k + 1) s p hloop

/-- Against a workflow that never leaves RUNNING, the loop with a truthy
timeout T reaches poll floor(T/2) + 1 and raises there. -/
theorem waitLoop_reaches_timeout (g : Nat → WorkflowStatus)
    (hg : ∀ n, g n = WorkflowStatus.running) (T : Rat) (hT : 0 < T) :
    ∀ (j k : Nat), k + j = Nat.floor (T / 2) + 1 →
      waitLoop g (some T) (j + 1) k
        = some (WaitOutcome.timedOut
            (2 * ((Nat.floor (T / 2) + 1 : Nat) : Rat))) := by
  have htruthy : timeoutTruthy (some T) = true := by
    simp [timeoutTruthy]
    exact ne_of_gt hT
  intro j
  induction j with
  | zero =>
      intro k hk
      have hkeq : k = Nat.floor (T / 2) + 1 := by omega
      subst hkeq
      rw [waitLoop, hg, if_neg (by simp [isTerminal])]
      have hlt : timeoutVal (some T) < 2 * ((Nat.floor (T / 2) + 1 : Nat) : Rat) := by
        have hfl : T / 2 - 1 < (Nat.floor (T / 2) : Rat) :=
          Nat.sub_one_lt_floor (T / 2)
        show T < 2 * ((Nat.floor (T / 2) + 1 : Nat) : Rat)
        push_cast
        linarith
      rw [if_pos (by rw [htruthy, decide_eq_true hlt]; rfl)]
  | succ j ih =>
      intro k hk
      rw [waitLoop, hg, if_neg (by simp [isTerminal])]
      have hk' : k ≤ Nat.floor (T / 2) := by omega
      have hle : 2 * ((k : Nat) : Rat) ≤ T := by
        have hfl : (Nat.floor (T / 2) : Rat) ≤ T / 2 :=
          Nat.floor_le (by positivity)
        have hcast : ((k : Nat) : Rat) ≤ (Nat.floor (T / 2) : Rat) := by
          exact_mod_cast hk'
        linarith
      have hcond :
          (timeoutTruthy (some T)
            && decide (timeoutVal (some T) < 2 * ((k : Nat) : Rat))) = false := by
        rw [htruthy]
        have : ¬ timeoutVal (some T) < 2 * ((k : Nat) : Rat) := by
          show ¬ T < 2 * ((k : Nat) : Rat)
          linarith
        rw [decide_eq_false this]
        rfl
      rw [if_neg (by rw [hcond]; exact Bool.false_ne_true)]
      exact ih (k + 1) (by omega)

/-- C8: wait_for_completion polls at a fixed 2-second interval and, for
every status stream and timeout, a normal return only ever carries a
terminal status (COMPLETED, FAILED or CANCELLED); against a workflow whose
status never leaves RUNNING, a truthy caller-supplied timeout T makes the
loop raise the timeout error — an outcome distinct from a FAILED return —
at an elapsed time strictly greater than T and at most T plus one
2-second poll interval. -/
theorem c8_wait_for_completion_timeout (T : Rat) (hT : 0 < T)
    (g : Nat → WorkflowStatus) (hg : ∀ n, g n = WorkflowStatus.running) :
    (∀ (g' : Nat → WorkflowStatus) (t : Option Rat) (fuel k : Nat)
        (s : WorkflowStatus) (p : Nat),
        waitLoop g' t fuel k = some (WaitOutcome.done s p) →
          isTerminal s = true)
    ∧ ∃ fuel n, wait_for_completion g (some T) fuel
          = some (WaitOutcome.timedOut (2 * (n : Rat)))
        ∧ T < 2 * (n : Rat) ∧ 2 * (n : Rat) ≤ T + 2 := by
  constructor
  · intro g' t fuel k s p hloop
    exact waitLoop_done_terminal g' t fuel k s p hloop
  · refine ⟨Nat.floor (T / 2) + 2, Nat.floor (T / 2) + 1, ?_, ?_, ?_⟩
    · have hrun := waitLoop_reaches_timeout g hg T hT (Nat.floor (T / 2) + 1)
        0 (by omega)
      have hcast : ((Nat.floor (T / 2) + 1 : Nat) : Rat)
          = (Nat.floor (T / 2) : Rat) + 1 := by push_cast; ring
      rw [hcast] at hrun
      exact hrun
    · have hfl : T / 2 - 1 < (Nat.floor (T / 2) : Rat) :=
        Nat.sub_one_lt_floor (T / 2)
      linarith
    · have hfl : (Nat.floor (T / 2) : Rat) ≤ T / 2 :=
        Nat.floor_le (by positivity)
      linarith

/-- C8 witness: timeout 5 against an always-RUNNING workflow; the
terminal-return conjunct is additionally exercised on a concrete stream
that is COMPLETED at the first poll, whose loop returns done after one
iteration. -/
theorem c8_wait_for_completion_timeout_witness :
    (0 : Rat) < 5
    ∧ ((∀ (g' : Nat → WorkflowStatus) (t : Option Rat) (fuel k : Nat)
          (s : WorkflowStatus) (p : Nat),
          waitLoop g' t fuel k
              = some (WaitOutcome.done s p) → isTerminal s = true)
      ∧ ∃ fuel n, wait_for_completion (fun _ => WorkflowStatus.running)
            (some 5) fuel = some (WaitOutcome.timedOut (2 * (n : Rat)))
          ∧ (5 : Rat) < 2 * (n : Rat) ∧ 2 * (n : Rat) ≤ (5 : Rat) + 2)
    ∧ waitLoop (fun _ => WorkflowStatus.completed) none 1 0
        = some (WaitOutcome.done WorkflowStatus.completed 0)
    ∧ isTerminal WorkflowStatus.completed = true := by
  refine ⟨by norm_num, c8_wait_for_completion_timeout 5 (by norm_num)
    (fun _ => WorkflowStatus.running) (fun _ => rfl), rfl, ?_⟩
  exact (c8_wait_for_completion_timeout 5 (by norm_num)
    (fun _ => WorkflowStatus.running) (fun _ => rfl)).1
    (fun _ => WorkflowStatus.completed) none 1 0 WorkflowStatus.completed 0
    rfl

/-- C10: a falsy timeout — None or 0 — disables the deadline entirely:
against statuses that are never terminal the loop is still running after
any number of iterations, so it never raises the timeout error and
timeout 0 does not mean give up immediately. -/
theorem c10_falsy_timeout_never_raises (g : Nat → WorkflowStatus)
    (hg : ∀ n, isTerminal (g n) = false) (fuel k : Nat) :
    waitLoop g none fuel k = none ∧ waitLoop g (some 0) fuel k = none := by
  induction fuel generalizing k with
  | zero => exact ⟨rfl, rfl⟩
  | succ n ih =>
      constructor
      · rw [waitLoop, if_neg (by rw [hg k]; exact Bool.false_ne_true),
          if_neg (by simp [timeoutTruthy])]
        exact (ih (k + 1)).1
      · rw [waitLoop, if_neg (by rw [hg k]; exact Bool.false_ne_true),
          if_neg (by simp [timeoutTruthy])]
        exact (ih (k + 1)).2

/-- C10 witness: seven polls of an always-RUNNING workflow under timeout
None and under timeout 0. -/
theorem c10_falsy_timeout_never_raises_witness :
    waitLoop (fun _ => WorkflowStatus.running) none 7 0 = none
    ∧ waitLoop (fun _ => WorkflowStatus.running) (some 0) 7 0 = none := by
  exact c10_falsy_timeout_never_raises (fun _ => WorkflowStatus.running)
    (fun _ => rfl) 7 0

end Agentainer
